import Mathlib

/-!
Shallow embedding of the multiscrap dispatch subsystem: the capability
contract (`src/workers/base_scraper.py`), the handler registry
(`src/workers/registry.py`) and the job dispatcher
(`src/workers/consumer.py`).  Python dicts are association lists with
Python insertion-order update semantics, JSON values are the inductive
`Val`, raised exceptions are the `Except`-error channel carrying a
`PyExn`, and wall-clock readings are passed in as explicit `Timestamp`
parameters.  Per-site scraper implementations are opaque handlers, as in
the spec: a `Scraper` records its attribute names, which of them are
callable, and the outcome of invoking each operation.
-/

/-- JSON-like Python values as they occur in message bodies, payloads and
results. -/
inductive Val where
  | vnone : Val
  | vbool : Bool → Val
  | vint : Int → Val
  | vstr : String → Val
  | vlist : List Val → Val
  | vdict : List (String × Val) → Val

/-- Python `d.get(k)` / `d[k]` on an insertion-ordered dict, modelled as
lookup in an association list (first match; our constructions keep keys
unique). -/
def dictGet {α : Type} (d : List (String × α)) (k : String) : Option α :=
  match d with
  | [] => none
  | (k1, v) :: rest => if k1 = k then some v else dictGet rest k

/-- Python `d[k] = v`: an existing key keeps its position and gets the new
value, a fresh key is appended at the end. -/
def dictSet {α : Type} (d : List (String × α)) (k : String) (v : α) :
    List (String × α) :=
  match d with
  | [] => [(k, v)]
  | (k1, v1) :: rest =>
      if k1 = k then (k, v) :: rest else (k1, v1) :: dictSet rest k v

/-- Python `d.update(e)`: each entry of `e` is assigned into `d` in order. -/
def dictUpdate {α : Type} (d e : List (String × α)) : List (String × α) :=
  e.foldl (fun acc kv => dictSet acc kv.1 kv.2) d

/-- Python truthiness for the values that reach `if not site_id:` and
friends. -/
def pyTruthy : Val → Bool
  | .vnone => false
  | .vbool b => b
  | .vint n => decide (n ≠ 0)
  | .vstr s => decide (s ≠ "")
  | .vlist xs => !xs.isEmpty
  | .vdict xs => !xs.isEmpty

/-- Python type name of a value, as it appears in AttributeError
messages. -/
def pyTypeName : Val → String
  | .vnone => "NoneType"
  | .vbool _ => "bool"
  | .vint _ => "int"
  | .vstr _ => "str"
  | .vlist _ => "list"
  | .vdict _ => "dict"

/-- Rendering of a value inside an f-string (`str(v)`); only the string
case matters to the claims. -/
def pyStr : Val → String
  | .vnone => "None"
  | .vbool b => if b then "True" else "False"
  | .vint n => toString n
  | .vstr s => s
  | .vlist _ => "[...]"
  | .vdict _ => "{...}"

/-- A wall-clock reading (UTC), at millisecond granularity; `iso` stands
for `datetime.isoformat()`, whose exact textual format no claim
constrains. -/
structure Timestamp where
  ms : Int
deriving DecidableEq, Repr

def Timestamp.iso (t : Timestamp) : String := toString t.ms

/-- The wall-clock readings one handler invocation can make:
`t0` and `t1` are the first and second `datetime.now(...)` readings and
`utc` is a `datetime.utcnow()` reading. -/
structure Clock where
  t0 : Timestamp
  t1 : Timestamp
  utc : Timestamp
deriving DecidableEq, Repr

/-- The Python exceptions that arise in the embedded code paths. -/
inductive PyExn where
  | jsonDecodeError : String → PyExn
  | unicodeDecodeError : String → PyExn
  | attributeError : String → PyExn
  | typeError : String → PyExn
  | valueError : String → PyExn
  | other : String → PyExn
deriving DecidableEq, Repr

/-- The message `str(e)` of an exception. -/
def PyExn.msg : PyExn → String
  | .jsonDecodeError m => m
  | .unicodeDecodeError m => m
  | .attributeError m => m
  | .typeError m => m
  | .valueError m => m
  | .other m => m

/-- Whether the exception is caught by `except json.JSONDecodeError`
(`UnicodeDecodeError` is not: both subclass `ValueError`, neither the
other). -/
def PyExn.isJSONDecodeError : PyExn → Bool
  | .jsonDecodeError _ => true
  | _ => false

/-- `ScraperResult` from `base_scraper.py`: standardized outcome of one
scraping operation. -/
structure ScraperResult where
  status : String
  data : List (String × Val) := []
  error : Option String := none
  metadata : List (String × Val) := []

/-- An instantiated handler.  `attrs` is `dir(self)` (sorted attribute
names), `calls` says which attributes are callable, and `run` gives the
outcome of invoking a bound operation on a payload: a returned
`ScraperResult` or a raised exception. -/
structure Scraper where
  className : String
  site_id : String
  attrs : List String
  calls : String → Bool
  run : String → Val → Except PyExn ScraperResult

/-- Python `hasattr(self, action)`: the attribute name must be a string,
otherwise `hasattr` raises TypeError. -/
def pyAttrName (action : Val) : Except PyExn String :=
  match action with
  | .vstr a => .ok a
  | _ => .error (.typeError "attribute name must be string")

def Scraper.hasattr (s : Scraper) (a : String) : Bool :=
  s.attrs.contains a

/-- Python `name.startswith("_")`, written structurally on the character
list so that concrete instances evaluate definitionally. -/
def underscored (s : String) : Bool :=
  match s.data with
  | [] => false
  | ch :: _ => ch == '_'

/-- `BaseScraper.get_available_actions` (base_scraper.py lines 104-112):
public callable attributes except the dispatch and introspection
entries. -/
def Scraper.get_available_actions (s : Scraper) : List String :=
  s.attrs.filter fun m =>
    !underscored m && s.calls m &&
      !(["execute", "get_available_actions", "to_dict"].contains m)

/-- Message of the AttributeError raised by `datetime.timezone` when
`datetime` is the class imported by `from datetime import datetime`. -/
def dtTimezoneMsg : String :=
  "type object \x27datetime.datetime\x27 has no attribute \x27timezone\x27"

/-- The expression `datetime.now(datetime.timezone.utc)` of
`base_scraper.py` lines 62 and 84.  The module imports the class
(`from datetime import datetime`), and the class `datetime.datetime` has
no attribute `timezone`, so evaluating `datetime.timezone` raises
`AttributeError` before `now` is ever called.  The argument is the value
the reading would produce were the expression written as intended. -/
def datetimeNowTzUtc (_t : Timestamp) : Except PyExn Timestamp :=
  .error (.attributeError dtTimezoneMsg)

/-- `BaseScraper.execute` (base_scraper.py lines 51-102), translated
line by line.  The clock `c` supplies the wall-clock values its readings
would observe.  Note that the very first statement, line 62, evaluates
`datetime.now(datetime.timezone.utc)`, which raises `AttributeError`
(see `datetimeNowTzUtc`), so every later line is unreachable; they are
nevertheless translated faithfully below. -/
def BaseScraper.execute (s : Scraper) (action : Val) (payload : Val)
    (c : Clock) : Except PyExn ScraperResult := do
  let started_at ← datetimeNowTzUtc c.t0
  let a ← pyAttrName action
  if ¬ s.hasattr a then
    let notSupported := "Ação \x27" ++ a ++ "\x27 não suportada pelo scraper \x27"
      ++ s.site_id ++ "\x27"
    let diag := [("available_actions",
      Val.vlist (s.get_available_actions.map Val.vstr))]
    return { status := "failed", error := some notSupported, metadata := diag }
  if ¬ s.calls a then
    let notMethod := "\x27" ++ a ++ "\x27 não é um método válido"
    return { status := "failed", error := some notMethod }
  match s.run a payload with
  | .ok result => do
      let completed_at ← datetimeNowTzUtc c.t1
      let timing := [("started_at", Val.vstr started_at.iso),
        ("completed_at", Val.vstr completed_at.iso),
        ("duration_ms", Val.vint (completed_at.ms - started_at.ms))]
      return { result with metadata := dictUpdate result.metadata timing }
  | .error e =>
      let timing := [("started_at", Val.vstr started_at.iso),
        ("completed_at", Val.vstr c.utc.iso)]
      return { status := "failed", error := some e.msg, metadata := timing }

/-- A handler class as the registry sees it (`Type[BaseScraper]`):
its `__name__`, its `site_id` class attribute (`none` models the base
default `None`), and the data of the instances it constructs. -/
structure ScraperClass where
  name : String
  site_id : Option String
  attrs : List String
  calls : String → Bool
  run : String → Val → Except PyExn ScraperResult

/-- Python truthiness of the `site_id` class attribute: falsy when `None`
or the empty string. -/
def siteIdTruthy : Option String → Bool
  | none => false
  | some s => decide (s ≠ "")

/-- `BaseScraper.__init__` (base_scraper.py lines 45-48) as run by
`scraper_class()`: raises ValueError when `site_id` is falsy, otherwise
yields the instance. -/
def ScraperClass.instantiate (c : ScraperClass) : Except PyExn Scraper :=
  if siteIdTruthy c.site_id then
    .ok { className := c.name, site_id := c.site_id.getD "",
          attrs := c.attrs, calls := c.calls, run := c.run }
  else
    .error (.valueError (c.name ++ " deve definir site_id"))

/-- Log events emitted by the registry (registry.py); we record them
structurally rather than as rendered strings. -/
inductive LogEvent where
  | warnReplace : String → String → String → LogEvent
  | infoRegistered : String → String → LogEvent
  | errorPackageImport : String → String → LogEvent
  | errorModuleLoad : String → String → LogEvent
deriving DecidableEq, Repr

/-- `ScraperRegistry` (registry.py): the insertion-ordered
`site_id → scraper class` dict. -/
structure ScraperRegistry where
  scrapers : List (String × ScraperClass)

/-- `ScraperRegistry.register` (registry.py lines 31-44): raises
ValueError on a falsy `site_id`; logs a replacement warning naming the
old and the new class when the identifier already exists; stores the
class under its `site_id`. -/
def ScraperRegistry.register (r : ScraperRegistry) (c : ScraperClass) :
    Except PyExn (ScraperRegistry × List LogEvent) :=
  if ¬ siteIdTruthy c.site_id then
    .error (.valueError ("Scraper " ++ c.name ++ " não tem site_id definido"))
  else
    let sid := c.site_id.getD ""
    let warns := match dictGet r.scrapers sid with
      | some old => [LogEvent.warnReplace sid old.name c.name]
      | none => []
    .ok (⟨dictSet r.scrapers sid c⟩, warns ++ [LogEvent.infoRegistered sid c.name])

/-- `ScraperRegistry.get` (registry.py lines 90-103): look the class up
and return a fresh instance; a construction error propagates (never hit
for registered classes, whose `site_id` is truthy). -/
def ScraperRegistry.get (r : ScraperRegistry) (sid : String) :
    Except PyExn (Option Scraper) :=
  match dictGet r.scrapers sid with
  | some c => (c.instantiate).map some
  | none => .ok none

def ScraperRegistry.has (r : ScraperRegistry) (sid : String) : Bool :=
  (dictGet r.scrapers sid).isSome

/-- `ScraperRegistry.list_sites`: the registered identifiers in insertion
order. -/
def ScraperRegistry.list_sites (r : ScraperRegistry) : List String :=
  r.scrapers.map Prod.fst

/-- One module yielded by `pkgutil.iter_modules` during discovery:
either its import succeeds, exposing the `BaseScraper` subclasses
(excluding `BaseScraper` itself) found among its attributes in `dir`
order, or the import raises. -/
inductive ModuleLoad where
  | ok : List ScraperClass → ModuleLoad
  | importError : String → ModuleLoad

structure ModuleCand where
  modname : String
  load : ModuleLoad

/-- Outcome of `ScraperRegistry.discover`. -/
structure DiscoverOut where
  registry : ScraperRegistry
  count : Nat
  logs : List LogEvent

/-- The inner loop of `discover` over one imported module's candidate
classes (registry.py lines 69-82): a class whose `site_id` is `None` is
filtered out; otherwise it is registered and counted.  An exception
raised by `register` (falsy `site_id`, i.e. the empty string) propagates
out of the loop, aborting the remaining classes of this module; the
increments already made persist. -/
def registerModuleClasses (r : ScraperRegistry) (cs : List ScraperClass)
    (count : Nat) (logs : List LogEvent) :
    ScraperRegistry × Nat × List LogEvent × Option PyExn :=
  match cs with
  | [] => (r, count, logs, none)
  | c :: rest =>
      if c.site_id.isSome then
        match r.register c with
        | .ok (r1, l) => registerModuleClasses r1 rest (count + 1) (logs ++ l)
        | .error e => (r, count, logs, some e)
      else
        registerModuleClasses r rest count logs

/-- The module loop of `discover` (registry.py lines 64-84): skip
underscore-prefixed module names; a module whose import raises is
logged and skipped; an exception escaping the per-class loop is caught
by the same `except Exception` and logged, and discovery moves on to the
next module. -/
def discoverModules (r : ScraperRegistry) (mods : List ModuleCand)
    (count : Nat) (logs : List LogEvent) : DiscoverOut :=
  match mods with
  | [] => ⟨r, count, logs⟩
  | m :: rest =>
      if underscored m.modname then
        discoverModules r rest count logs
      else
        match m.load with
        | .importError e =>
            discoverModules r rest count (logs ++ [LogEvent.errorModuleLoad m.modname e])
        | .ok cs =>
            match registerModuleClasses r cs count logs with
            | (r1, count1, logs1, none) => discoverModules r1 rest count1 logs1
            | (r1, count1, logs1, some e) =>
                discoverModules r1 rest count1
                  (logs1 ++ [LogEvent.errorModuleLoad m.modname e.msg])

/-- `ScraperRegistry.discover` (registry.py lines 46-88).  The source
package is either importable, yielding the candidate modules, or its
own import fails, in which case nothing is registered and the count
is 0. -/
def ScraperRegistry.discover (r : ScraperRegistry) (pkgName : String)
    (pkg : Except String (List ModuleCand)) : DiscoverOut :=
  match pkg with
  | .error e => ⟨r, 0, [LogEvent.errorPackageImport pkgName e]⟩
  | .ok mods => discoverModules r mods 0 []

/-- A message body, characterized by the outcome of `json.loads(body)`
(consumer.py line 94); the JSON grammar itself is not re-implemented.
`ok v` is a body that parses to the value `v` (e.g. `b"3"` parses to
`vint 3`), `jsonDecodeError` a body whose parse raises
`json.JSONDecodeError` (e.g. `b"not json"`), and `unicodeDecodeError` a
body that is not valid UTF-8 (e.g. `b"\xff"`), whose decode raises
`UnicodeDecodeError` — which is *not* a `json.JSONDecodeError`. -/
inductive ParseOutcome where
  | ok : Val → ParseOutcome
  | jsonDecodeError : String → ParseOutcome
  | unicodeDecodeError : String → ParseOutcome

/-- `dict.get(site_id)` on the registry's string-keyed dict when the key
is an arbitrary message value: unhashable values (lists, dicts) raise
TypeError, any other non-string key simply misses. -/
def regLookup (r : ScraperRegistry) (sid : Val) :
    Except PyExn (Option ScraperClass) :=
  match sid with
  | .vstr s => .ok (dictGet r.scrapers s)
  | .vlist _ => .error (.typeError "unhashable type: \x27list\x27")
  | .vdict _ => .error (.typeError "unhashable type: \x27dict\x27")
  | _ => .ok none

/-- `JobConsumer._create_error_result` (consumer.py lines 137-154); `now`
is the `datetime.utcnow()` reading taken for `processed_at`. -/
def JobConsumer.create_error_result (job_id site_id : Val) (error : String)
    (extra : Option (List (String × Val))) (now : Timestamp) :
    List (String × Val) :=
  [("job_id", job_id),
   ("site_id", site_id),
   ("status", Val.vstr "failed"),
   ("data", Val.vdict (extra.getD [])),
   ("error", Val.vstr error),
   ("metadata", Val.vdict [("processed_at", Val.vstr now.iso)])]

/-- `JobConsumer.process_job` (consumer.py lines 84-135), translated line
by line.  `c` supplies the wall-clock readings of the inner
`scraper.execute` call and `now` the consumer's own `datetime.utcnow()`
reading. -/
def JobConsumer.process_job (reg : ScraperRegistry) (body : ParseOutcome)
    (c : Clock) (now : Timestamp) : Except PyExn (List (String × Val)) := do
  let job ← match body with
    | .ok v => pure v
    | .jsonDecodeError m => throw (.jsonDecodeError m)
    | .unicodeDecodeError m => throw (.unicodeDecodeError m)
  let fields ← match job with
    | .vdict d => pure d
    | v => throw (.attributeError
        ("\x27" ++ pyTypeName v ++ "\x27 object has no attribute \x27get\x27"))
  let job_id := (dictGet fields "job_id").getD (Val.vstr "unknown")
  let site_id := (dictGet fields "site_id").getD Val.vnone
  let action := (dictGet fields "action").getD (Val.vstr "search_product")
  let payload := (dictGet fields "payload").getD (Val.vdict [])
  if ¬ pyTruthy site_id then
    return JobConsumer.create_error_result job_id site_id
      "Campo \x27site_id\x27 é obrigatório" none now
  let cls ← regLookup reg site_id
  let scraper ← match cls with
    | some cl => (cl.instantiate).map some
    | none => pure none
  match scraper with
  | none =>
      let notFound := "Scraper não encontrado para site_id \x27"
        ++ pyStr site_id ++ "\x27"
      return JobConsumer.create_error_result job_id site_id notFound
        (some [("available_sites", Val.vlist (reg.list_sites.map Val.vstr))]) now
  | some s => do
      let result ← BaseScraper.execute s action payload c
      return [("job_id", job_id),
              ("site_id", site_id),
              ("action", action),
              ("status", Val.vstr result.status),
              ("data", Val.vdict result.data),
              ("error", match result.error with
                | some e => Val.vstr e
                | none => Val.vnone),
              ("metadata", Val.vdict
                (dictSet result.metadata "processed_at" (Val.vstr now.iso)))]

/-- Observable broker effects of one `on_message` callback: the results
published (in order, via `basic_publish`, assumed not to fail),
whether `basic_ack` ran, and whether `basic_nack` ran and with which
`requeue` flag. -/
structure MsgEffects where
  published : List (List (String × Val))
  acked : Bool
  nacked : Bool
  nackRequeue : Bool

/-- `JobConsumer.on_message` (consumer.py lines 169-207), translated line
by line: on a normal return of `process_job` the result is published and
the delivery acked; a `json.JSONDecodeError` is caught first and the
delivery nacked without requeue, publishing nothing; any other exception
is caught by the outer `except Exception`, a failed result keyed by the
sentinel job id `"unknown"` is published, and the delivery is nacked
without requeue. -/
def JobConsumer.on_message (reg : ScraperRegistry) (body : ParseOutcome)
    (c : Clock) (now : Timestamp) : MsgEffects :=
  match JobConsumer.process_job reg body c now with
  | .ok result =>
      { published := [result], acked := true,
        nacked := false, nackRequeue := false }
  | .error e =>
      if e.isJSONDecodeError then
        { published := [], acked := false,
          nacked := true, nackRequeue := false }
      else
        { published := [JobConsumer.create_error_result (Val.vstr "unknown")
            Val.vnone e.msg none now],
          acked := false, nacked := true, nackRequeue := false }

/-- Modelled from the spec: `execute` as base_scraper.py lines 62 and 84
clearly intend (`datetime.now(timezone.utc)`, the spec's "capturing
wall-clock start/end times around the call").  Identical to
`BaseScraper.execute` except that the two clock readings succeed,
yielding `c.t0` and `c.t1`.  It exists only to relate the claims to the
code downstream of the line-62 slip; `BaseScraper.execute` is the
authoritative translation. -/
def BaseScraper.executeIntended (s : Scraper) (action : Val) (payload : Val)
    (c : Clock) : Except PyExn ScraperResult := do
  let started_at := c.t0
  let a ← pyAttrName action
  if ¬ s.hasattr a then
    let notSupported := "Ação \x27" ++ a ++ "\x27 não suportada pelo scraper \x27"
      ++ s.site_id ++ "\x27"
    let diag := [("available_actions",
      Val.vlist (s.get_available_actions.map Val.vstr))]
    return { status := "failed", error := some notSupported, metadata := diag }
  if ¬ s.calls a then
    let notMethod := "\x27" ++ a ++ "\x27 não é um método válido"
    return { status := "failed", error := some notMethod }
  match s.run a payload with
  | .ok result =>
      let completed_at := c.t1
      let timing := [("started_at", Val.vstr started_at.iso),
        ("completed_at", Val.vstr completed_at.iso),
        ("duration_ms", Val.vint (completed_at.ms - started_at.ms))]
      return { result with metadata := dictUpdate result.metadata timing }
  | .error e =>
      let timing := [("started_at", Val.vstr started_at.iso),
        ("completed_at", Val.vstr c.utc.iso)]
      return { status := "failed", error := some e.msg, metadata := timing }

/-- The operation table of a minimal concrete handler: one operation,
`search_product`, returning a completed result with handler-set
metadata. -/
def demoRun : String → Val → Except PyExn ScraperResult := fun a _p =>
  if a = "search_product" then
    .ok { status := "completed", data := [("items", Val.vlist [])],
          metadata := [("source", Val.vstr "demo")] }
  else
    .error (.other "no such bound operation")

/-- Attribute names (`dir`) of the demo handler instances, in sorted
order, including the members inherited from the base class. -/
def demoAttrs : List String :=
  ["__init__", "__repr__", "execute", "get_available_actions", "logger",
   "search_product", "site_id"]

/-- Which demo attributes are callable (`site_id` is a string and
`logger` a logger object, neither callable). -/
def demoCalls : String → Bool := fun a =>
  ["__init__", "__repr__", "execute", "get_available_actions",
   "search_product"].contains a

/-- A concrete handler class: site `demo`, supporting only
`search_product`. -/
def demoClass : ScraperClass :=
  { name := "DemoScraper", site_id := some "demo",
    attrs := demoAttrs, calls := demoCalls, run := demoRun }

/-- The instance the demo class constructs. -/
def demoScraper : Scraper :=
  { className := "DemoScraper", site_id := "demo",
    attrs := demoAttrs, calls := demoCalls, run := demoRun }

/-- A variant of the demo handler whose every operation raises
`RuntimeError("boom")`. -/
def demoRaisingScraper : Scraper :=
  { demoScraper with run := fun _ _ => .error (.other "boom") }

/-- A fixed clock for concrete evaluations: start at 1000 ms, finish at
1250 ms, `utcnow` at 1251 ms. -/
def clk : Clock := ⟨⟨1000⟩, ⟨1250⟩, ⟨1251⟩⟩

/-- Lookup after update at the same key. -/
theorem dictGet_dictSet_self {α : Type} (d : List (String × α)) (k : String)
    (v : α) : dictGet (dictSet d k v) k = some v := by
  induction d with
  | nil => simp [dictGet, dictSet]
  | cons hd t ih =>
      obtain ⟨k1, v1⟩ := hd
      by_cases hk : k1 = k
      · simp [dictGet, dictSet, hk]
      · simp [dictGet, dictSet, hk, ih]

/-- Lookup after update at a different key. -/
theorem dictGet_dictSet_ne {α : Type} (d : List (String × α)) (k k1 : String)
    (v : α) (h : k ≠ k1) : dictGet (dictSet d k v) k1 = dictGet d k1 := by
  induction d with
  | nil => simp [dictGet, dictSet, h]
  | cons hd t ih =>
      obtain ⟨k2, v2⟩ := hd
      by_cases hk : k2 = k
      · subst hk
        simp [dictGet, dictSet, h]
      · simp [dictGet, dictSet, hk, ih]

/-- C1: the claim says that for every contract-conforming handler,
action string and payload, `execute` never raises and returns a result
with a valid status.  The code violates this universally: the first
statement of `execute` (base_scraper.py line 62) evaluates
`datetime.now(datetime.timezone.utc)`, and since the module imports the
*class* `datetime`, which has no `timezone` attribute, every invocation
raises `AttributeError` before any other line runs. -/
theorem C1_execute_always_raises (s : Scraper) (action payload : Val)
    (c : Clock) :
    BaseScraper.execute s action payload c
      = Except.error (PyExn.attributeError dtTimezoneMsg) := rfl

/-- C2: the claim says an invocation whose operation raises yields a
failed result carrying the exception message and timing metadata with
`duration_ms >= 0`.  On the code, `execute` raises `AttributeError` at
line 62 before the operation is ever invoked, so the handler exception
("boom" here) is never caught and no such result is produced. -/
theorem C2_exception_result_never_produced :
    BaseScraper.execute demoRaisingScraper (Val.vstr "search_product")
        (Val.vdict []) clk
      = Except.error (PyExn.attributeError dtTimezoneMsg) := rfl

/-- C4: the claim says an unresolved action yields, without throwing, a
failed result naming the action and the handler identifier plus the
supported-action list.  On the code, `execute` raises `AttributeError`
at line 62 before the `hasattr` check at line 65 is reached. -/
theorem C4_unknown_action_raises_instead :
    BaseScraper.execute demoScraper (Val.vstr "other") (Val.vdict []) clk
      = Except.error (PyExn.attributeError dtTimezoneMsg) := rfl

/-- C5: the claim says a normally-returning invocation gets exactly the
three timing keys merged into its metadata, preserving the rest.  On the
code no merge ever happens: `execute` raises `AttributeError` at line 62
(and line 84 contains the same broken expression). -/
theorem C5_merge_never_happens :
    BaseScraper.execute demoScraper (Val.vstr "search_product")
        (Val.vdict []) clk
      = Except.error (PyExn.attributeError dtTimezoneMsg) := rfl

/-- C10: the claim says an action resolving to a non-callable attribute
yields a failed result with empty data and metadata.  `site_id` is such
an attribute on the demo handler, but `execute` raises `AttributeError`
at line 62 before the `callable` check at line 73 is reached. -/
theorem C10_noncallable_raises_instead :
    BaseScraper.execute demoScraper (Val.vstr "site_id") (Val.vdict []) clk
      = Except.error (PyExn.attributeError dtTimezoneMsg) := rfl

/-- Downstream of the line-62 slip the unresolved-action branch behaves
exactly as C4 describes: on the intended clock readings the demo handler
rejects action `other` with a failed result naming the action and the
identifier and listing `search_product` as the only available action,
without raising. -/
theorem executeIntended_demo_unknown_action :
    BaseScraper.executeIntended demoScraper (Val.vstr "other")
        (Val.vdict []) clk
      = Except.ok
          { status := "failed",
            error := some
              "Ação \x27other\x27 não suportada pelo scraper \x27demo\x27",
            metadata := [("available_actions",
              Val.vlist [Val.vstr "search_product"])] } := rfl

/-- Downstream of the line-62 slip the non-callable branch behaves
exactly as C10 describes: empty data, empty metadata, no timing keys,
no supported-action list. -/
theorem executeIntended_demo_noncallable :
    BaseScraper.executeIntended demoScraper (Val.vstr "site_id")
        (Val.vdict []) clk
      = Except.ok
          { status := "failed",
            error := some "\x27site_id\x27 não é um método válido" } := rfl

/-- Downstream of the line-62 slip the success branch merges exactly the
three timing keys into the handler-set metadata, preserving the
handler's own entry, as C5 describes. -/
theorem executeIntended_demo_success_merge :
    BaseScraper.executeIntended demoScraper (Val.vstr "search_product")
        (Val.vdict []) clk
      = Except.ok
          { status := "completed",
            data := [("items", Val.vlist [])],
            metadata := [("source", Val.vstr "demo"),
              ("started_at", Val.vstr "1000"),
              ("completed_at", Val.vstr "1250"),
              ("duration_ms", Val.vint 250)] } := rfl

/-- Even downstream of the line-62 slip, the exception branch of
`execute` (base_scraper.py lines 95-102) merges only `started_at` and
`completed_at` into the metadata — no `duration_ms` — contradicting the
remainder of C2. -/
theorem executeIntended_demo_exception_no_duration :
    BaseScraper.executeIntended demoRaisingScraper (Val.vstr "search_product")
        (Val.vdict []) clk
      = Except.ok
          { status := "failed",
            error := some "boom",
            metadata := [("started_at", Val.vstr "1000"),
              ("completed_at", Val.vstr "1251")] } := rfl

/-- C3 counterexample: the message body `b"3"` cannot be deserialized as
the Job structure (it parses to the integer 3, on which `job.get`
raises AttributeError), yet the dispatcher publishes a result for it:
the AttributeError is caught by the outer `except Exception` handler of
`on_message` (consumer.py lines 195-207), which publishes a failed
result keyed `"unknown"` before rejecting the message — refuting "no
result is published". -/
theorem C3_counterexample :
    (JobConsumer.on_message ⟨[]⟩ (ParseOutcome.ok (Val.vint 3)) clk
        ⟨1251⟩).published.length = 1 ∧
    dictGet ((JobConsumer.on_message ⟨[]⟩ (ParseOutcome.ok (Val.vint 3)) clk
        ⟨1251⟩).published.headD []) "job_id" = some (Val.vstr "unknown") := by
  exact ⟨rfl, rfl⟩

/-- C3 amended: for every message body whose JSON decoding raises
`json.JSONDecodeError`, the dispatcher publishes no result and rejects
the message without requeue (consumer.py lines 190-193). -/
theorem C3_amended_json_decode_error (reg : ScraperRegistry) (m : String)
    (c : Clock) (now : Timestamp) :
    JobConsumer.on_message reg (ParseOutcome.jsonDecodeError m) c now
      = { published := [], acked := false,
          nacked := true, nackRequeue := false } := rfl

/-- C8: for every well-formed job whose `site_id` is a non-empty string
not registered in the registry, the dispatcher publishes exactly one
failed result whose `data` holds the current registered-identifier list
under `available_sites`, and acknowledges (does not reject) the
message (consumer.py lines 110-118 and 177-188). -/
theorem C8_unknown_site_publishes_diag (reg : ScraperRegistry)
    (fields : List (String × Val)) (s : String) (c : Clock) (now : Timestamp)
    (hsid : dictGet fields "site_id" = some (Val.vstr s))
    (hne : s ≠ "") (habs : dictGet reg.scrapers s = none) :
    ∃ res,
      (JobConsumer.on_message reg (ParseOutcome.ok (Val.vdict fields)) c now)
        = { published := [res], acked := true,
            nacked := false, nackRequeue := false } ∧
      dictGet res "status" = some (Val.vstr "failed") ∧
      dictGet res "data" = some (Val.vdict
        [("available_sites", Val.vlist (reg.list_sites.map Val.vstr))]) := by
  refine ⟨JobConsumer.create_error_result
      ((dictGet fields "job_id").getD (Val.vstr "unknown")) (Val.vstr s)
      ("Scraper não encontrado para site_id \x27" ++ s ++ "\x27")
      (some [("available_sites", Val.vlist (reg.list_sites.map Val.vstr))])
      now, ?_, ?_, ?_⟩
  · unfold JobConsumer.on_message JobConsumer.process_job
    simp [hsid, habs, pyTruthy, hne, regLookup, pyStr]
    rfl
  · rfl
  · rfl

/-- Witness for C8: a registry holding only `demo`, a job for the
unregistered site `x`. -/
theorem C8_witness :
    (dictGet [("job_id", Val.vstr "j1"), ("site_id", Val.vstr "x")] "site_id"
        = some (Val.vstr "x")) ∧
    ("x" ≠ "") ∧
    (dictGet (ScraperRegistry.mk [("demo", demoClass)]).scrapers "x" = none) ∧
    ∃ res,
      (JobConsumer.on_message ⟨[("demo", demoClass)]⟩
          (ParseOutcome.ok (Val.vdict
            [("job_id", Val.vstr "j1"), ("site_id", Val.vstr "x")])) clk ⟨1251⟩)
        = { published := [res], acked := true,
            nacked := false, nackRequeue := false } ∧
      dictGet res "status" = some (Val.vstr "failed") ∧
      dictGet res "data" = some (Val.vdict
        [("available_sites", Val.vlist
          ((ScraperRegistry.mk [("demo", demoClass)]).list_sites.map Val.vstr))]) :=
  ⟨rfl, by decide, rfl,
    C8_unknown_site_publishes_diag ⟨[("demo", demoClass)]⟩
      [("job_id", Val.vstr "j1"), ("site_id", Val.vstr "x")] "x" clk ⟨1251⟩
      rfl (by decide) rfl⟩

/-- C9: every exception that escapes `process_job` after deserialization
and is not a `json.JSONDecodeError` is caught at the outermost boundary
of `on_message`: a failed result keyed by the sentinel job id
`"unknown"` and carrying the exception message is published, and the
message is rejected without requeue — no ack, no redelivery by the
dispatcher itself (consumer.py lines 195-207 and 137-154). -/
theorem C9_escaping_exception (reg : ScraperRegistry) (body : ParseOutcome)
    (c : Clock) (now : Timestamp) (e : PyExn)
    (hrun : JobConsumer.process_job reg body c now = Except.error e)
    (hnj : e.isJSONDecodeError = false) :
    JobConsumer.on_message reg body c now
      = { published := [JobConsumer.create_error_result (Val.vstr "unknown")
            Val.vnone e.msg none now],
          acked := false, nacked := true, nackRequeue := false } := by
  unfold JobConsumer.on_message
  rw [hrun]
  simp [hnj]

/-- Witness for C9: with the demo handler registered, a perfectly valid
job for it makes `scraper.execute` raise `AttributeError` (the line-62
slip), which escapes `process_job`; `on_message` then publishes the
sentinel-keyed failed result and rejects the delivery. -/
theorem C9_witness :
    (JobConsumer.process_job ⟨[("demo", demoClass)]⟩
        (ParseOutcome.ok (Val.vdict
          [("job_id", Val.vstr "j1"), ("site_id", Val.vstr "demo")])) clk ⟨1251⟩
      = Except.error (PyExn.attributeError dtTimezoneMsg)) ∧
    ((PyExn.attributeError dtTimezoneMsg).isJSONDecodeError = false) ∧
    JobConsumer.on_message ⟨[("demo", demoClass)]⟩
        (ParseOutcome.ok (Val.vdict
          [("job_id", Val.vstr "j1"), ("site_id", Val.vstr "demo")])) clk ⟨1251⟩
      = { published := [JobConsumer.create_error_result (Val.vstr "unknown")
            Val.vnone (PyExn.attributeError dtTimezoneMsg).msg none ⟨1251⟩],
          acked := false, nacked := true, nackRequeue := false } :=
  ⟨rfl, rfl,
    C9_escaping_exception ⟨[("demo", demoClass)]⟩
      (ParseOutcome.ok (Val.vdict
        [("job_id", Val.vstr "j1"), ("site_id", Val.vstr "demo")])) clk ⟨1251⟩
      (PyExn.attributeError dtTimezoneMsg) rfl rfl⟩

/-- C6: registering two handler classes with the same (truthy)
identifier in sequence succeeds both times; afterwards `get` returns an
instance of the second class, the substitution is logged with the old
and the new implementation names, and no other registry entry is
affected (registry.py lines 31-44 and 90-103). -/
theorem C6_register_last_writer_wins (r : ScraperRegistry)
    (A B : ScraperClass) (sid : String)
    (hA : A.site_id = some sid) (hB : B.site_id = some sid) (hne : sid ≠ "") :
    ∃ r1 logs1 r2 logs2,
      r.register A = Except.ok (r1, logs1) ∧
      r1.register B = Except.ok (r2, logs2) ∧
      (∃ inst, r2.get sid = Except.ok (some inst) ∧
        inst.className = B.name ∧ inst.run = B.run) ∧
      LogEvent.warnReplace sid A.name B.name ∈ logs2 ∧
      ∀ k, k ≠ sid → dictGet r2.scrapers k = dictGet r.scrapers k := by
  have ht : siteIdTruthy (some sid) = true := by simp [siteIdTruthy, hne]
  refine ⟨⟨dictSet r.scrapers sid A⟩,
    (match dictGet r.scrapers sid with
      | some old => [LogEvent.warnReplace sid old.name A.name]
      | none => []) ++ [LogEvent.infoRegistered sid A.name],
    ⟨dictSet (dictSet r.scrapers sid A) sid B⟩,
    [LogEvent.warnReplace sid A.name B.name,
      LogEvent.infoRegistered sid B.name], ?_, ?_, ?_, ?_, ?_⟩
  · unfold ScraperRegistry.register
    simp [ht, hA]
  · unfold ScraperRegistry.register
    simp [ht, hB, dictGet_dictSet_self]
  · refine ⟨⟨B.name, sid, B.attrs, B.calls, B.run⟩, ?_, rfl, rfl⟩
    unfold ScraperRegistry.get
    rw [dictGet_dictSet_self]
    unfold ScraperClass.instantiate
    simp [ht, hB, Except.map]
  · simp
  · intro k hk
    rw [dictGet_dictSet_ne _ _ _ _ (Ne.symm hk),
      dictGet_dictSet_ne _ _ _ _ (Ne.symm hk)]

/-- A second implementation for site `demo`, exercising replacement. -/
def demoClassNew : ScraperClass :=
  { name := "DemoScraperV2", site_id := some "demo",
    attrs := demoAttrs, calls := demoCalls,
    run := fun _ _ => Except.error (.other "v2") }

/-- Witness for C6: registering `DemoScraper` then `DemoScraperV2`, both
for site `demo`, into the empty registry. -/
theorem C6_witness :
    (demoClass.site_id = some "demo") ∧
    (demoClassNew.site_id = some "demo") ∧
    ("demo" ≠ "") ∧
    ∃ r1 logs1 r2 logs2,
      (ScraperRegistry.mk []).register demoClass = Except.ok (r1, logs1) ∧
      r1.register demoClassNew = Except.ok (r2, logs2) ∧
      (∃ inst, r2.get "demo" = Except.ok (some inst) ∧
        inst.className = demoClassNew.name ∧ inst.run = demoClassNew.run) ∧
      LogEvent.warnReplace "demo" demoClass.name demoClassNew.name ∈ logs2 ∧
      ∀ k, k ≠ "demo" →
        dictGet r2.scrapers k = dictGet (ScraperRegistry.mk []).scrapers k :=
  ⟨rfl, rfl, by decide,
    C6_register_last_writer_wins ⟨[]⟩ demoClass demoClassNew "demo"
      rfl rfl (by decide)⟩

/-- C7: over a source with one candidate module that fails to import and
two modules each exposing one contract-conforming class with a non-null
(truthy) identifier, `discover` logs and skips the failing candidate
without aborting the rest: it registers exactly the two valid classes
and returns 2 (registry.py lines 46-88). -/
theorem C7_discover_partial_failure (r : ScraperRegistry)
    (mf m1 m2 emsg : String) (c1 c2 : ScraperClass) (s1 s2 : String)
    (hmf : underscored mf = false) (hm1 : underscored m1 = false)
    (hm2 : underscored m2 = false)
    (h1 : c1.site_id = some s1) (h1ne : s1 ≠ "")
    (h2 : c2.site_id = some s2) (h2ne : s2 ≠ "") (hss : s1 ≠ s2) :
    (ScraperRegistry.discover r "scrapers"
        (Except.ok [⟨mf, ModuleLoad.importError emsg⟩,
          ⟨m1, ModuleLoad.ok [c1]⟩, ⟨m2, ModuleLoad.ok [c2]⟩])).count = 2 ∧
    dictGet (ScraperRegistry.discover r "scrapers"
        (Except.ok [⟨mf, ModuleLoad.importError emsg⟩,
          ⟨m1, ModuleLoad.ok [c1]⟩,
          ⟨m2, ModuleLoad.ok [c2]⟩])).registry.scrapers s1 = some c1 ∧
    dictGet (ScraperRegistry.discover r "scrapers"
        (Except.ok [⟨mf, ModuleLoad.importError emsg⟩,
          ⟨m1, ModuleLoad.ok [c1]⟩,
          ⟨m2, ModuleLoad.ok [c2]⟩])).registry.scrapers s2 = some c2 ∧
    (∀ k, k ≠ s1 → k ≠ s2 →
      dictGet (ScraperRegistry.discover r "scrapers"
        (Except.ok [⟨mf, ModuleLoad.importError emsg⟩,
          ⟨m1, ModuleLoad.ok [c1]⟩,
          ⟨m2, ModuleLoad.ok [c2]⟩])).registry.scrapers k
        = dictGet r.scrapers k) ∧
    LogEvent.errorModuleLoad mf emsg ∈ (ScraperRegistry.discover r "scrapers"
        (Except.ok [⟨mf, ModuleLoad.importError emsg⟩,
          ⟨m1, ModuleLoad.ok [c1]⟩, ⟨m2, ModuleLoad.ok [c2]⟩])).logs := by
  have h1s : c1.site_id.isSome = true := by rw [h1]; rfl
  have h2s : c2.site_id.isSome = true := by rw [h2]; rfl
  have h1t : siteIdTruthy c1.site_id = true := by
    rw [h1]; simp [siteIdTruthy, h1ne]
  have h2t : siteIdTruthy c2.site_id = true := by
    rw [h2]; simp [siteIdTruthy, h2ne]
  have key : ScraperRegistry.discover r "scrapers"
      (Except.ok [⟨mf, ModuleLoad.importError emsg⟩,
        ⟨m1, ModuleLoad.ok [c1]⟩, ⟨m2, ModuleLoad.ok [c2]⟩])
      = ⟨⟨dictSet (dictSet r.scrapers s1 c1) s2 c2⟩, 2,
          LogEvent.errorModuleLoad mf emsg ::
            ((match dictGet r.scrapers s1 with
              | some old => [LogEvent.warnReplace s1 old.name c1.name]
              | none => []) ++ [LogEvent.infoRegistered s1 c1.name]) ++
            ((match dictGet (dictSet r.scrapers s1 c1) s2 with
              | some old => [LogEvent.warnReplace s2 old.name c2.name]
              | none => []) ++ [LogEvent.infoRegistered s2 c2.name])⟩ := by
    have t1 : siteIdTruthy (some s1) = true := by simp [siteIdTruthy, h1ne]
    have t2 : siteIdTruthy (some s2) = true := by simp [siteIdTruthy, h2ne]
    unfold ScraperRegistry.discover
    simp only [discoverModules, registerModuleClasses, ScraperRegistry.register,
      hmf, hm1, hm2, h1s, h2s, h1, h2, t1, t2, Option.getD_some,
      Bool.false_eq_true, Bool.true_eq_false, not_true, not_false_iff,
      ite_true, ite_false, if_true, if_false, List.nil_append,
      List.append_assoc, List.cons_append]
    simp
  refine ⟨?_, ?_, ?_, ?_, ?_⟩
  · rw [key]
  · rw [key]
    exact (dictGet_dictSet_ne _ s2 s1 c2 (Ne.symm hss)).trans
      (dictGet_dictSet_self _ s1 c1)
  · rw [key]
    exact dictGet_dictSet_self _ s2 c2
  · intro k hk1 hk2
    rw [key]
    exact (dictGet_dictSet_ne _ s2 k c2 (Ne.symm hk2)).trans
      (dictGet_dictSet_ne _ s1 k c1 (Ne.symm hk1))
  · rw [key]
    simp

/-- A valid candidate class for site `alpha`. -/
def alphaClass : ScraperClass :=
  { name := "AlphaScraper", site_id := some "alpha",
    attrs := demoAttrs, calls := demoCalls, run := demoRun }

/-- A valid candidate class for site `beta`. -/
def betaClass : ScraperClass :=
  { name := "BetaScraper", site_id := some "beta",
    attrs := demoAttrs, calls := demoCalls, run := demoRun }

/-- Witness for C7: `badmod` fails to import while `alphamod` and
`betamod` each expose one valid class; discovery over the empty registry
registers both valid classes and returns 2. -/
theorem C7_witness :
    (underscored "badmod" = false) ∧ (underscored "alphamod" = false) ∧
    (underscored "betamod" = false) ∧
    (alphaClass.site_id = some "alpha") ∧ ("alpha" ≠ "") ∧
    (betaClass.site_id = some "beta") ∧ ("beta" ≠ "") ∧
    ("alpha" ≠ "beta") ∧
    ((ScraperRegistry.mk ∅).discover "scrapers"
        (Except.ok [⟨"badmod", ModuleLoad.importError "no module named bs4"⟩,
          ⟨"alphamod", ModuleLoad.ok [alphaClass]⟩,
          ⟨"betamod", ModuleLoad.ok [betaClass]⟩])).count = 2 ∧
    dictGet ((ScraperRegistry.mk ∅).discover "scrapers"
        (Except.ok [⟨"badmod", ModuleLoad.importError "no module named bs4"⟩,
          ⟨"alphamod", ModuleLoad.ok [alphaClass]⟩,
          ⟨"betamod", ModuleLoad.ok [betaClass]⟩])).registry.scrapers "alpha"
      = some alphaClass ∧
    dictGet ((ScraperRegistry.mk ∅).discover "scrapers"
        (Except.ok [⟨"badmod", ModuleLoad.importError "no module named bs4"⟩,
          ⟨"alphamod", ModuleLoad.ok [alphaClass]⟩,
          ⟨"betamod", ModuleLoad.ok [betaClass]⟩])).registry.scrapers "beta"
      = some betaClass ∧
    LogEvent.errorModuleLoad "badmod" "no module named bs4"
      ∈ ((ScraperRegistry.mk ∅).discover "scrapers"
        (Except.ok [⟨"badmod", ModuleLoad.importError "no module named bs4"⟩,
          ⟨"alphamod", ModuleLoad.ok [alphaClass]⟩,
          ⟨"betamod", ModuleLoad.ok [betaClass]⟩])).logs := by
  have base := C7_discover_partial_failure (ScraperRegistry.mk ∅)
    "badmod" "alphamod" "betamod" "no module named bs4" alphaClass betaClass
    "alpha" "beta" rfl rfl rfl rfl (by decide) rfl (by decide) (by decide)
  exact ⟨rfl, rfl, rfl, rfl, by decide, rfl, by decide, by decide,
    base.1, base.2.1, base.2.2.1, base.2.2.2.2⟩
